import Mathlib

/-!
Verification of the `lambda-timeout-wrapper` core (`src/index.ts`,
`createTimeoutWrapper`).

The TypeScript core races a caller task against a periodic deadline
checker driven by `setInterval`.  The JavaScript event loop is
single-threaded and cooperative, so one invocation is faithfully
modelled as a deterministic step sequence: check `k` of the periodic
checker happens at wall-clock instant `k * checkIntervalMs` (check 0 is
the initial check performed right after `setInterval`), and the caller
task settles at an explicit instant of its own.  A task settlement at
instant `t` preempts any checker event scheduled at an instant `≥ t`
(ties go to the task; theorems about concrete runs avoid ties).

Errors are modelled by their message string plus the two fields the
code attaches to timeout errors (`isLambdaTimeout`, `handlerError`,
the latter kept as the nested error's message).  Handler callables are
modelled by their observable behaviour: a duration in milliseconds and
an `Except String` outcome (`.error msg` models a throw).  The logger
is not modelled; instead every run produces a trace of the
semantically relevant events (timer setup/clearing, checks, cleanup
and timeout-handler start/end, final settlement of the invocation's
promise).
-/

/-- Error object model: message plus the `isLambdaTimeout` marker flag and
the nested `handlerError` (kept as its message) that
`createTimeoutWrapper` attaches to timeout errors.  A plain JS `Error`
has neither field set. -/
structure JsError where
  message : String
  isLambdaTimeout : Bool
  handlerError : Option String
deriving Repr, DecidableEq

/-- A raw JS `Error(msg)` as thrown by a task, a remaining-time source or a
handler: no timeout marker, no nested error. -/
def rawError (msg : String) : JsError :=
  { message := msg, isLambdaTimeout := false, handlerError := none }

/-- Observable events of one invocation, in order of occurrence. -/
inductive Event where
  | setIntervalEv : Event
  | checkEv : Int → Event
  | checkFailedEv : Event
  | clearIntervalEv : Event
  | cleanupStart : Event
  | cleanupEnd : Bool → Event
  | timeoutHandlerStart : Event
  | timeoutHandlerEnd : Bool → Event
  | resolveEv : Event
  | rejectEv : Event
deriving Repr, DecidableEq

/-- Is this event a completed periodic timeout check? -/
def isCheckEv : Event → Bool
  | .checkEv _ => true
  | _ => false

/-- Numeric configuration of `createTimeoutWrapper` (destructured options
with their defaults already resolved), field names from the source. -/
structure Config where
  safetyMarginMs : Int
  checkIntervalMs : Int
  cleanupTimeMs : Int
  isUsingFallbackTimer : Bool
deriving Repr, DecidableEq

/-- The source defaults: safetyMarginMs 5000, checkIntervalMs 1000,
cleanupTimeMs 3000, Lambda-context timer mode. -/
def defaultConfig : Config :=
  { safetyMarginMs := 5000, checkIntervalMs := 1000, cleanupTimeMs := 3000,
    isUsingFallbackTimer := false }

/-- Wall clock of one invocation: `startNow` is `Date.now()` at invocation
start (used for the fallback stopwatch baseline), `nowAt k` is
`Date.now()` during check `k`. -/
structure Clock where
  startNow : Int
  nowAt : Nat → Int

/-- Behaviour of the caller's task `fn`: either it settles at wall-clock
instant `t` with an outcome (`.error msg` models a rejection), or it
never settles within the observation window. -/
inductive TaskSpec (T : Type) where
  | settles : Int → Except String T → TaskSpec T
  | never : TaskSpec T

/-- Behaviour of the user cleanup handler: how long it runs and whether it
resolves or throws (at the end of that time). -/
structure CleanupSpec where
  durationMs : Int
  outcome : Except String Unit

/-- Behaviour of the caller's timeout handler: how long it runs and whether
it resolves or throws. -/
structure HandlerSpec where
  durationMs : Int
  outcome : Except String Unit

/-- Result of one invocation of the wrapped function: the event trace, the
settlement of the returned promise (`none` if it has not settled within
the simulated window), and whether the periodic interval timer is still
live afterwards. -/
structure RunResult (T : Type) where
  trace : List Event
  outcome : Option (Except JsError T)
  timerActive : Bool

/-- The guarded `if (intervalId) { clearInterval(intervalId); intervalId =
null; }` idiom used at every clearing site of the source: clears the
timer and records the event only when the timer is live. -/
def clearIntervalGuarded (timerActive : Bool) (tr : List Event) : Bool × List Event :=
  if timerActive then (false, tr ++ [Event.clearIntervalEv]) else (timerActive, tr)

/-- Wall-clock instant of periodic check `k` (check 0 is the initial check
performed immediately after the interval is set up). -/
def checkTime (cfg : Config) (k : Nat) : Int :=
  (k : Int) * cfg.checkIntervalMs

/-- Has the task settled by instant `tNow`?  Returns its outcome if so.
A settlement at exactly `tNow` counts as settled (ties go to the task). -/
def taskSettledBy {T : Type} (task : TaskSpec T) (tNow : Int) : Option (Except String T) :=
  match task with
  | .settles t o => if t ≤ tNow then some o else none
  | .never => none

/-- The user-cleanup stage of `checkTimeout`: the handler is raced against
`setTimeout(_, cleanupTimeMs)`.  Returns whether the stage succeeded and
how long it took: budget overrun resolves the stage (as a failure) at
`cleanupTimeMs`; otherwise the handler's own outcome and duration count. -/
def cleanupStage (cleanupTimeMs : Int) (c : CleanupSpec) : Bool × Int :=
  if cleanupTimeMs < c.durationMs then (false, cleanupTimeMs)
  else ((c.outcome.isOk : Bool), c.durationMs)

/-- Outcome of the shutdown sequence triggered by `checkTimeout`: its event
trace, the error it rejects with, and how long it takes from trigger to
rejection. -/
structure ShutdownResult where
  trace : List Event
  err : JsError
  duration : Int

/-- The shutdown sequence of `checkTimeout` (source lines 142-189): run the
optional user cleanup handler under the `cleanupTimeMs` budget with its
failure swallowed by `.catch`, then unconditionally run the timeout
handler; compose the final rejection error exactly as the source does. -/
def shutdownSequence (cleanupTimeMs : Int) (cleanup : Option CleanupSpec)
    (handler : HandlerSpec) : ShutdownResult :=
  let cuPart : List Event × Int :=
    match cleanup with
    | none => ([], 0)
    | some c =>
      let st := cleanupStage cleanupTimeMs c
      ([Event.cleanupStart, Event.cleanupEnd st.1], st.2)
  match handler.outcome with
  | .ok _ =>
    { trace := cuPart.1 ++ [Event.timeoutHandlerStart, Event.timeoutHandlerEnd true],
      err := { message := "Lambda function timeout detected", isLambdaTimeout := true,
               handlerError := none },
      duration := cuPart.2 + handler.durationMs }
  | .error msg =>
    { trace := cuPart.1 ++ [Event.timeoutHandlerStart, Event.timeoutHandlerEnd false],
      err := { message := "Timeout handler failed: " ++ msg, isLambdaTimeout := true,
               handlerError := some msg },
      duration := cuPart.2 + handler.durationMs }

/-- Settlement of the race when the task settles first: on success the
task's `.then` clears the interval (guarded) and the race resolves with
the task's value, then the `finally` guard is a no-op; on rejection the
race rejects with the raw task error and the `finally` guard clears. -/
def taskSettleBranch {T : Type} (o : Except String T) : RunResult T :=
  match o with
  | .ok v =>
    let s1 := clearIntervalGuarded true []
    let s2 := clearIntervalGuarded s1.1 s1.2
    { trace := s2.2 ++ [Event.resolveEv], outcome := some (Except.ok v), timerActive := s2.1 }
  | .error msg =>
    let s1 := clearIntervalGuarded true []
    { trace := s1.2 ++ [Event.rejectEv], outcome := some (Except.error (rawError msg)),
      timerActive := s1.1 }

/-- The trigger branch of `checkTimeout` at a check whose remaining time `r`
is at or below the safety margin: clear the interval immediately
(guarded), run the shutdown sequence, and reject with its error at
instant `tNow + duration` — unless the task settles first
(strictly after `tNow`, at or before that rejection instant), in which
case `Promise.race` adopts the task's outcome and the shutdown rejection
is discarded.  The `finally` guard is a no-op on every path here. -/
def triggerBranch {T : Type} (cfg : Config) (task : TaskSpec T) (cleanup : Option CleanupSpec)
    (handler : HandlerSpec) (tNow r : Int) : RunResult T :=
  let s1 := clearIntervalGuarded true [Event.checkEv r]
  let sd := shutdownSequence cfg.cleanupTimeMs cleanup handler
  match taskSettledBy task (tNow + sd.duration) with
  | some (.ok v) =>
    let s2 := clearIntervalGuarded s1.1 (s1.2 ++ sd.trace)
    let s3 := clearIntervalGuarded s2.1 s2.2
    { trace := s3.2 ++ [Event.resolveEv], outcome := some (Except.ok v), timerActive := s3.1 }
  | some (.error msg) =>
    let s2 := clearIntervalGuarded s1.1 (s1.2 ++ sd.trace)
    { trace := s2.2 ++ [Event.rejectEv], outcome := some (Except.error (rawError msg)),
      timerActive := s2.1 }
  | none =>
    let s2 := clearIntervalGuarded s1.1 (s1.2 ++ sd.trace)
    { trace := s2.2 ++ [Event.rejectEv], outcome := some (Except.error sd.err),
      timerActive := s2.1 }

/-- One iteration of the race at check index `k`: if the task has settled by
the check instant, the race settles with the task; otherwise
`checkTimeout` runs — a throwing remaining-time computation clears the
timer (guarded) and rejects with the raw error; a reading at or below
the safety margin triggers shutdown; otherwise the check is logged and
the race continues with `rest`. -/
def raceStep {T : Type} (cfg : Config) (remaining : Nat → Except String Int)
    (task : TaskSpec T) (cleanup : Option CleanupSpec) (handler : HandlerSpec)
    (k : Nat) (rest : RunResult T) : RunResult T :=
  match taskSettledBy task (checkTime cfg k) with
  | some o => taskSettleBranch o
  | none =>
    match remaining k with
    | .error msg =>
      let s1 := clearIntervalGuarded true [Event.checkFailedEv]
      let s2 := clearIntervalGuarded s1.1 s1.2
      { trace := s2.2 ++ [Event.rejectEv], outcome := some (Except.error (rawError msg)),
        timerActive := s2.1 }
    | .ok r =>
      if r ≤ cfg.safetyMarginMs then
        triggerBranch cfg task cleanup handler (checkTime cfg k) r
      else
        { trace := Event.checkEv r :: rest.trace, outcome := rest.outcome,
          timerActive := rest.timerActive }

/-- The race loop from check index `k` on, observed for `fuel` further
checks.  With no fuel left nothing has settled and the timer is still
live. -/
def raceLoop {T : Type} (cfg : Config) (remaining : Nat → Except String Int)
    (task : TaskSpec T) (cleanup : Option CleanupSpec) (handler : HandlerSpec) :
    Nat → Nat → RunResult T
  | _, 0 => { trace := [], outcome := none, timerActive := true }
  | k, fuel + 1 =>
    raceStep cfg remaining task cleanup handler k
      (raceLoop cfg remaining task cleanup handler (k + 1) fuel)

/-- Remaining time computed by check `k` (source lines 121-123): fallback
mode derives it from the initial reading and elapsed wall-clock time;
live mode calls the source afresh each check (`source n` is the value or
throw of the n-th call of `getRemainingTimeInMillis`). -/
def remainingSeq (cfg : Config) (clock : Clock) (source : Nat → Except String Int)
    (k : Nat) : Except String Int :=
  if cfg.isUsingFallbackTimer then
    (source 0).map (fun init0 => init0 - (clock.nowAt k - clock.startNow))
  else source k

/-- One invocation of the wrapped function after validation has passed: in
fallback mode the start instant and the initial remaining-time reading
are captured once, before racing begins (a throwing initial reading
rejects the invocation before any timer is set up); then the interval is
set up and the race loop runs, starting with the initial check. -/
def runInvocation {T : Type} (cfg : Config) (clock : Clock)
    (source : Nat → Except String Int) (task : TaskSpec T)
    (cleanup : Option CleanupSpec) (handler : HandlerSpec) (fuel : Nat) : RunResult T :=
  if cfg.isUsingFallbackTimer then
    match source 0 with
    | .error msg =>
      { trace := [], outcome := some (Except.error (rawError msg)), timerActive := false }
    | .ok init0 =>
      let res := raceLoop cfg (fun k => Except.ok (init0 - (clock.nowAt k - clock.startNow)))
        task cleanup handler 0 fuel
      { trace := Event.setIntervalEv :: res.trace, outcome := res.outcome,
        timerActive := res.timerActive }
  else
    let res := raceLoop cfg source task cleanup handler 0 fuel
    { trace := Event.setIntervalEv :: res.trace, outcome := res.outcome,
      timerActive := res.timerActive }

/-- A JS argument position that expects a function: absent (`undefined`),
a callable with behaviour `f`, or some non-callable value. -/
inductive JsOpt (α : Type) where
  | undefined : JsOpt α
  | callable : α → JsOpt α
  | notCallable : JsOpt α

/-- The destructuring default for `getRemainingTimeInMillis`:
`() => 60 * 1000 * 15`.  It replaces the option only when the option is
`undefined`; an explicitly passed non-callable value is kept. -/
def defaultRemainingSource : Nat → Except String Int :=
  fun _ => Except.ok (60 * 1000 * 15)

/-- Resolution of the `getRemainingTimeInMillis` option by the destructuring
default (source line 48). -/
def resolveSourceOption (o : JsOpt (Nat → Except String Int)) :
    JsOpt (Nat → Except String Int) :=
  match o with
  | .undefined => .callable defaultRemainingSource
  | x => x

/-- Invocation-time validation (source lines 74-85), in source order: the
resolved `getRemainingTimeInMillis` must be callable, `timeoutHandler`
must be present and callable, and `userCleanupHandler`, when provided,
must be callable. -/
def validateInvocation (srcOpt : JsOpt (Nat → Except String Int))
    (thOpt : JsOpt HandlerSpec) (cuOpt : JsOpt CleanupSpec) :
    Except JsError ((Nat → Except String Int) × HandlerSpec × Option CleanupSpec) :=
  match resolveSourceOption srcOpt with
  | .callable src =>
    match thOpt with
    | .callable th =>
      match cuOpt with
      | .undefined => Except.ok (src, th, none)
      | .callable cu => Except.ok (src, th, some cu)
      | .notCallable =>
        Except.error (rawError "User cleanup handler must be a function if provided")
    | _ => Except.error (rawError "Timeout handler function is required")
  | _ => Except.error (rawError "getRemainingTimeInMillis is required")

/-- Full invocation of the wrapped function, validation included: a
validation failure rejects immediately, before any timer setup or
racing; otherwise the invocation runs with the resolved collaborators. -/
def invoke {T : Type} (srcOpt : JsOpt (Nat → Except String Int))
    (thOpt : JsOpt HandlerSpec) (cuOpt : JsOpt CleanupSpec)
    (cfg : Config) (clock : Clock) (task : TaskSpec T) (fuel : Nat) : RunResult T :=
  match validateInvocation srcOpt thOpt cuOpt with
  | .error e => { trace := [], outcome := some (Except.error e), timerActive := false }
  | .ok x => runInvocation cfg clock x.1 task x.2.2 x.2.1 fuel

/-! ### Helper lemmas about the branches of the race -/

theorem clearIntervalGuarded_inactive (tr : List Event) :
    clearIntervalGuarded false tr = (false, tr) := rfl

theorem taskSettleBranch_ok {T : Type} (v : T) :
    taskSettleBranch (Except.ok v) =
      { trace := [Event.clearIntervalEv, Event.resolveEv],
        outcome := some (Except.ok v), timerActive := false } := rfl

theorem taskSettleBranch_error {T : Type} (msg : String) :
    taskSettleBranch (T := T) (Except.error msg) =
      { trace := [Event.clearIntervalEv, Event.rejectEv],
        outcome := some (Except.error (rawError msg)), timerActive := false } := rfl

theorem triggerBranch_taskMissing {T : Type} (cfg : Config) (task : TaskSpec T)
    (cleanup : Option CleanupSpec) (handler : HandlerSpec) (tNow r : Int)
    (h : taskSettledBy task
      (tNow + (shutdownSequence cfg.cleanupTimeMs cleanup handler).duration) = none) :
    triggerBranch cfg task cleanup handler tNow r =
      { trace := Event.checkEv r :: Event.clearIntervalEv ::
          ((shutdownSequence cfg.cleanupTimeMs cleanup handler).trace ++ [Event.rejectEv]),
        outcome := some (Except.error (shutdownSequence cfg.cleanupTimeMs cleanup handler).err),
        timerActive := false } := by
  simp [triggerBranch, clearIntervalGuarded, h]

theorem triggerBranch_taskOk {T : Type} (cfg : Config) (task : TaskSpec T)
    (cleanup : Option CleanupSpec) (handler : HandlerSpec) (tNow r : Int) (v : T)
    (h : taskSettledBy task
      (tNow + (shutdownSequence cfg.cleanupTimeMs cleanup handler).duration) =
        some (Except.ok v)) :
    triggerBranch cfg task cleanup handler tNow r =
      { trace := Event.checkEv r :: Event.clearIntervalEv ::
          ((shutdownSequence cfg.cleanupTimeMs cleanup handler).trace ++ [Event.resolveEv]),
        outcome := some (Except.ok v), timerActive := false } := by
  simp [triggerBranch, clearIntervalGuarded, h]

theorem triggerBranch_taskError {T : Type} (cfg : Config) (task : TaskSpec T)
    (cleanup : Option CleanupSpec) (handler : HandlerSpec) (tNow r : Int) (msg : String)
    (h : taskSettledBy task
      (tNow + (shutdownSequence cfg.cleanupTimeMs cleanup handler).duration) =
        some (Except.error msg)) :
    triggerBranch cfg task cleanup handler tNow r =
      { trace := Event.checkEv r :: Event.clearIntervalEv ::
          ((shutdownSequence cfg.cleanupTimeMs cleanup handler).trace ++ [Event.rejectEv]),
        outcome := some (Except.error (rawError msg)), timerActive := false } := by
  simp [triggerBranch, clearIntervalGuarded, h]

theorem raceStep_taskSettled {T : Type} (cfg : Config) (remaining : Nat → Except String Int)
    (task : TaskSpec T) (cleanup : Option CleanupSpec) (handler : HandlerSpec)
    (k : Nat) (rest : RunResult T) (o : Except String T)
    (h : taskSettledBy task (checkTime cfg k) = some o) :
    raceStep cfg remaining task cleanup handler k rest = taskSettleBranch o := by
  simp [raceStep, h]

theorem raceStep_checkError {T : Type} (cfg : Config) (remaining : Nat → Except String Int)
    (task : TaskSpec T) (cleanup : Option CleanupSpec) (handler : HandlerSpec)
    (k : Nat) (rest : RunResult T) (msg : String)
    (h1 : taskSettledBy task (checkTime cfg k) = none)
    (h2 : remaining k = Except.error msg) :
    raceStep cfg remaining task cleanup handler k rest =
      { trace := [Event.checkFailedEv, Event.clearIntervalEv, Event.rejectEv],
        outcome := some (Except.error (rawError msg)), timerActive := false } := by
  simp [raceStep, h1, h2, clearIntervalGuarded]

theorem raceStep_trigger {T : Type} (cfg : Config) (remaining : Nat → Except String Int)
    (task : TaskSpec T) (cleanup : Option CleanupSpec) (handler : HandlerSpec)
    (k : Nat) (rest : RunResult T) (r : Int)
    (h1 : taskSettledBy task (checkTime cfg k) = none)
    (h2 : remaining k = Except.ok r) (h3 : r ≤ cfg.safetyMarginMs) :
    raceStep cfg remaining task cleanup handler k rest =
      triggerBranch cfg task cleanup handler (checkTime cfg k) r := by
  simp [raceStep, h1, h2, h3]

theorem raceStep_continue {T : Type} (cfg : Config) (remaining : Nat → Except String Int)
    (task : TaskSpec T) (cleanup : Option CleanupSpec) (handler : HandlerSpec)
    (k : Nat) (rest : RunResult T) (r : Int)
    (h1 : taskSettledBy task (checkTime cfg k) = none)
    (h2 : remaining k = Except.ok r) (h3 : cfg.safetyMarginMs < r) :
    raceStep cfg remaining task cleanup handler k rest =
      { trace := Event.checkEv r :: rest.trace, outcome := rest.outcome,
        timerActive := rest.timerActive } := by
  simp [raceStep, h1, h2, not_le.mpr h3]

theorem raceLoop_succ {T : Type} (cfg : Config) (remaining : Nat → Except String Int)
    (task : TaskSpec T) (cleanup : Option CleanupSpec) (handler : HandlerSpec)
    (k fuel : Nat) :
    raceLoop cfg remaining task cleanup handler k (fuel + 1) =
      raceStep cfg remaining task cleanup handler k
        (raceLoop cfg remaining task cleanup handler (k + 1) fuel) := rfl

/-! ### Helper lemmas about the shutdown sequence -/

theorem shutdownSequence_count_thStart (ct : Int) (cu : Option CleanupSpec)
    (h : HandlerSpec) :
    (shutdownSequence ct cu h).trace.count Event.timeoutHandlerStart = 1 := by
  cases cu <;> rcases ho : h.outcome with _ | _ <;>
    simp [shutdownSequence, ho, List.count_append, List.count_cons]

theorem shutdownSequence_count_clear (ct : Int) (cu : Option CleanupSpec)
    (h : HandlerSpec) :
    (shutdownSequence ct cu h).trace.count Event.clearIntervalEv = 0 := by
  cases cu <;> rcases ho : h.outcome with _ | _ <;>
    simp [shutdownSequence, ho, List.count_append, List.count_cons]

theorem shutdownSequence_no_checkEv (ct : Int) (cu : Option CleanupSpec)
    (h : HandlerSpec) :
    ∀ e ∈ (shutdownSequence ct cu h).trace, isCheckEv e = false := by
  cases cu <;> rcases ho : h.outcome with _ | _ <;>
    simp [shutdownSequence, ho, isCheckEv]

theorem shutdownSequence_err_marked (ct : Int) (cu : Option CleanupSpec)
    (h : HandlerSpec) :
    (shutdownSequence ct cu h).err.isLambdaTimeout = true := by
  cases cu <;> rcases ho : h.outcome with _ | _ <;> simp [shutdownSequence, ho]

theorem shutdownSequence_err_handlerOk (ct : Int) (cu : Option CleanupSpec)
    (h : HandlerSpec) (ho : h.outcome = Except.ok ()) :
    (shutdownSequence ct cu h).err =
      { message := "Lambda function timeout detected", isLambdaTimeout := true,
        handlerError := none } := by
  cases cu <;> simp [shutdownSequence, ho]

theorem shutdownSequence_err_handlerFail (ct : Int) (cu : Option CleanupSpec)
    (h : HandlerSpec) (m : String) (ho : h.outcome = Except.error m) :
    (shutdownSequence ct cu h).err =
      { message := "Timeout handler failed: " ++ m, isLambdaTimeout := true,
        handlerError := some m } := by
  cases cu <;> simp [shutdownSequence, ho]

theorem shutdownSequence_cleanup_trace (ct : Int) (c : CleanupSpec) (h : HandlerSpec) :
    ∃ b x, (shutdownSequence ct (some c) h).trace =
      [Event.cleanupStart, Event.cleanupEnd b, Event.timeoutHandlerStart,
        Event.timeoutHandlerEnd x] := by
  rcases ho : h.outcome with _ | m
  · exact ⟨(cleanupStage ct c).1, false, by simp [shutdownSequence, ho]⟩
  · exact ⟨(cleanupStage ct c).1, true, by simp [shutdownSequence, ho]⟩

/-! ### Facts about task settlement and benign check prefixes -/

theorem taskSettledBy_never {T : Type} (tNow : Int) :
    taskSettledBy (TaskSpec.never (T := T)) tNow = none := rfl

theorem taskSettledBy_notYet {T : Type} (t : Int) (o : Except String T) (tNow : Int)
    (h : tNow < t) : taskSettledBy (TaskSpec.settles t o) tNow = none := by
  simp [taskSettledBy, not_le.mpr h]

theorem taskSettledBy_done {T : Type} (t : Int) (o : Except String T) (tNow : Int)
    (h : t ≤ tNow) : taskSettledBy (TaskSpec.settles t o) tNow = some o := by
  simp [taskSettledBy, h]

theorem count_zero_of_checks {pre : List Event}
    (h : ∀ e ∈ pre, isCheckEv e = true) {ev : Event} (hev : isCheckEv ev = false) :
    pre.count ev = 0 := by
  apply List.count_eq_zero.mpr
  intro hmem
  exact Bool.noConfusion ((h ev hmem).symm.trans hev)

/-- A run that has not settled performs the due benign checks and continues:
if every check from `j` (inclusive) for `d` steps finds the task pending
and a remaining time strictly above the safety margin, the loop's result
from `j` is that benign check prefix followed by the result from `j+d`. -/
theorem raceLoop_reach {T : Type} (cfg : Config) (remaining : Nat → Except String Int)
    (task : TaskSpec T) (cleanup : Option CleanupSpec) (handler : HandlerSpec) :
    ∀ (d j fuel : Nat),
      (∀ i, j ≤ i → i < j + d →
        taskSettledBy task (checkTime cfg i) = none ∧
        ∃ r, remaining i = Except.ok r ∧ cfg.safetyMarginMs < r) →
      ∃ pre : List Event,
        (∀ e ∈ pre, ∃ r, e = Event.checkEv r ∧ cfg.safetyMarginMs < r) ∧
        raceLoop cfg remaining task cleanup handler j (d + fuel) =
          { trace := pre ++
              (raceLoop cfg remaining task cleanup handler (j + d) fuel).trace,
            outcome := (raceLoop cfg remaining task cleanup handler (j + d) fuel).outcome,
            timerActive :=
              (raceLoop cfg remaining task cleanup handler (j + d) fuel).timerActive } := by
  intro d
  induction d with
  | zero =>
    intro j fuel _
    exact ⟨[], by simp, by simp⟩
  | succ d ih =>
    intro j fuel h
    obtain ⟨hts, r, hrem, hr⟩ := h j (Nat.le_refl j) (by omega)
    obtain ⟨pre, hpre, heq⟩ := ih (j + 1) fuel (fun i h1 h2 => h i (by omega) (by omega))
    refine ⟨Event.checkEv r :: pre, ?_, ?_⟩
    · intro e he
      rcases List.mem_cons.mp he with h1 | h1
      · exact ⟨r, h1, hr⟩
      · exact hpre e h1
    · have hfuel : d + 1 + fuel = (d + fuel) + 1 := by omega
      have hidx : j + 1 + d = j + (d + 1) := by omega
      rw [hidx] at heq
      rw [hfuel, raceLoop_succ,
        raceStep_continue cfg remaining task cleanup handler j _ r hts hrem hr, heq]
      simp

/-- Resource invariant of the race loop: while nothing has settled the
timer has never been cleared and is still live; on any settlement the
timer has been cleared exactly once and is no longer live. -/
theorem raceLoop_clearCount {T : Type} (cfg : Config) (remaining : Nat → Except String Int)
    (task : TaskSpec T) (cleanup : Option CleanupSpec) (handler : HandlerSpec) :
    ∀ (fuel k : Nat),
      ((raceLoop cfg remaining task cleanup handler k fuel).outcome = none →
        (raceLoop cfg remaining task cleanup handler k fuel).trace.count
          Event.clearIntervalEv = 0 ∧
        (raceLoop cfg remaining task cleanup handler k fuel).timerActive = true) ∧
      (∀ x, (raceLoop cfg remaining task cleanup handler k fuel).outcome = some x →
        (raceLoop cfg remaining task cleanup handler k fuel).trace.count
          Event.clearIntervalEv = 1 ∧
        (raceLoop cfg remaining task cleanup handler k fuel).timerActive = false) := by
  intro fuel
  induction fuel with
  | zero =>
    intro k
    constructor
    · intro _
      simp [raceLoop]
    · intro x hx
      simp [raceLoop] at hx
  | succ fuel ih =>
    intro k
    rw [raceLoop_succ]
    cases hts : taskSettledBy task (checkTime cfg k) with
    | some o =>
      rw [raceStep_taskSettled cfg remaining task cleanup handler k _ o hts]
      cases o with
      | ok v =>
        rw [taskSettleBranch_ok]
        constructor
        · intro h0
          simp at h0
        · intro x _
          simp [List.count_cons]
      | error msg =>
        rw [taskSettleBranch_error]
        constructor
        · intro h0
          simp at h0
        · intro x _
          simp [List.count_cons]
    | none =>
      cases hrem : remaining k with
      | error msg =>
        rw [raceStep_checkError cfg remaining task cleanup handler k _ msg hts hrem]
        constructor
        · intro h0
          simp at h0
        · intro x _
          simp [List.count_cons]
      | ok r =>
        by_cases hr : r ≤ cfg.safetyMarginMs
        · rw [raceStep_trigger cfg remaining task cleanup handler k _ r hts hrem hr]
          cases hts2 : taskSettledBy task
              (checkTime cfg k +
                (shutdownSequence cfg.cleanupTimeMs cleanup handler).duration) with
          | some o2 =>
            cases o2 with
            | ok v =>
              rw [triggerBranch_taskOk cfg task cleanup handler _ r v hts2]
              constructor
              · intro h0
                simp at h0
              · intro x _
                simp [List.count_cons, List.count_append,
                  shutdownSequence_count_clear]
            | error msg =>
              rw [triggerBranch_taskError cfg task cleanup handler _ r msg hts2]
              constructor
              · intro h0
                simp at h0
              · intro x _
                simp [List.count_cons, List.count_append,
                  shutdownSequence_count_clear]
          | none =>
            rw [triggerBranch_taskMissing cfg task cleanup handler _ r hts2]
            constructor
            · intro h0
              simp at h0
            · intro x _
              simp [List.count_cons, List.count_append,
                shutdownSequence_count_clear]
        · rw [raceStep_continue cfg remaining task cleanup handler k _ r hts hrem
            (not_le.mp hr)]
          constructor
          · intro h0
            obtain ⟨c0, t0⟩ := (ih (k + 1)).1 h0
            simp [List.count_cons, c0, t0]
          · intro x hx
            obtain ⟨c1, t1⟩ := (ih (k + 1)).2 x hx
            simp [List.count_cons, c1, t1]

/-- When the fallback baseline capture cannot throw (live mode, or a
non-throwing initial reading), an invocation is timer setup followed by
the race loop over the per-check remaining-time sequence. -/
theorem runInvocation_eq_loop {T : Type} (cfg : Config) (clock : Clock)
    (source : Nat → Except String Int) (task : TaskSpec T)
    (cleanup : Option CleanupSpec) (handler : HandlerSpec) (fuel : Nat)
    (hcap : cfg.isUsingFallbackTimer = true → ∃ i0, source 0 = Except.ok i0) :
    runInvocation cfg clock source task cleanup handler fuel =
      { trace := Event.setIntervalEv ::
          (raceLoop cfg (remainingSeq cfg clock source) task cleanup handler 0 fuel).trace,
        outcome :=
          (raceLoop cfg (remainingSeq cfg clock source) task cleanup handler 0 fuel).outcome,
        timerActive :=
          (raceLoop cfg (remainingSeq cfg clock source) task cleanup
            handler 0 fuel).timerActive } := by
  by_cases hfb : cfg.isUsingFallbackTimer = true
  · obtain ⟨i0, hi0⟩ := hcap hfb
    have h2 : remainingSeq cfg clock source =
        fun k => Except.ok (i0 - (clock.nowAt k - clock.startNow)) := by
      funext k
      simp [remainingSeq, hfb, hi0, Except.map]
    rw [h2]
    simp [runInvocation, hfb, hi0]
  · have h2 : remainingSeq cfg clock source = source := by
      funext k
      simp [remainingSeq, hfb]
    rw [h2]
    simp [runInvocation, hfb]

/-! ### Claim theorems -/

/-- C1: for every invocation whose remaining-time computation yields a
value at or below `safetyMarginMs` at some check while the task has not
settled, the periodic timer is cancelled immediately on trigger and no
further checks run, the shutdown sequence runs, the timeout handler runs
exactly once, and the invocation rejects with a failure whose
`isLambdaTimeout` flag is set. -/
theorem timeout_trigger_runs_shutdown_once {T : Type} (cfg : Config) (clock : Clock)
    (source : Nat → Except String Int) (cleanup : Option CleanupSpec)
    (handler : HandlerSpec) (r : Int) (k fuel : Nat)
    (hcap : cfg.isUsingFallbackTimer = true → ∃ i0, source 0 = Except.ok i0)
    (hbefore : ∀ j < k, ∃ rj, remainingSeq cfg clock source j = Except.ok rj ∧
      cfg.safetyMarginMs < rj)
    (htrig : remainingSeq cfg clock source k = Except.ok r)
    (hr : r ≤ cfg.safetyMarginMs)
    (hfuel : k < fuel) :
    ∃ pre rest,
      (runInvocation (T := T) cfg clock source TaskSpec.never cleanup
          handler fuel).trace =
        Event.setIntervalEv :: pre ++ Event.checkEv r :: Event.clearIntervalEv :: rest ∧
      (∀ e ∈ pre, isCheckEv e = true) ∧
      (∀ e ∈ rest, isCheckEv e = false) ∧
      (runInvocation (T := T) cfg clock source TaskSpec.never cleanup
          handler fuel).trace.count Event.timeoutHandlerStart = 1 ∧
      (∃ e, (runInvocation (T := T) cfg clock source TaskSpec.never cleanup
          handler fuel).outcome = some (Except.error e) ∧ e.isLambdaTimeout = true) ∧
      (runInvocation (T := T) cfg clock source TaskSpec.never cleanup
          handler fuel).timerActive = false := by
  rw [runInvocation_eq_loop cfg clock source TaskSpec.never cleanup handler fuel hcap]
  obtain ⟨m, rfl⟩ : ∃ m, fuel = k + (m + 1) := ⟨fuel - (k + 1), by omega⟩
  obtain ⟨pre, hpre, heq⟩ :=
    raceLoop_reach cfg (remainingSeq cfg clock source) TaskSpec.never cleanup handler
      k 0 (m + 1) (fun i _ hik => ⟨rfl, hbefore i (by omega)⟩)
  rw [Nat.zero_add] at heq
  rw [raceLoop_succ, raceStep_trigger cfg (remainingSeq cfg clock source) TaskSpec.never
        cleanup handler k _ r rfl htrig hr,
      triggerBranch_taskMissing cfg TaskSpec.never cleanup handler _ r rfl] at heq
  rw [heq]
  have hpreChecks : ∀ e ∈ pre, isCheckEv e = true := by
    intro e he
    obtain ⟨r', rfl, _⟩ := hpre e he
    rfl
  refine ⟨pre,
    (shutdownSequence cfg.cleanupTimeMs cleanup handler).trace ++ [Event.rejectEv],
    by simp, hpreChecks, ?_, ?_, ?_, rfl⟩
  · intro e he
    rcases List.mem_append.mp he with h1 | h1
    · exact shutdownSequence_no_checkEv cfg.cleanupTimeMs cleanup handler e h1
    · rw [List.mem_singleton.mp h1]
      rfl
  · have h0 : pre.count Event.timeoutHandlerStart = 0 :=
      count_zero_of_checks hpreChecks rfl
    simp [List.count_cons, List.count_append, shutdownSequence_count_thStart, h0]
  · exact ⟨(shutdownSequence cfg.cleanupTimeMs cleanup handler).err, rfl,
      shutdownSequence_err_marked cfg.cleanupTimeMs cleanup handler⟩

/-- Witness for C1: with the default configuration (live mode, safety
margin 5000 ms), a source reporting 4000 ms at the initial check, a
never-settling task and a succeeding 500 ms timeout handler, the
invocation rejects with a timeout-marked error. -/
theorem timeout_trigger_runs_shutdown_once_witness :
    ∃ e, (runInvocation (T := Nat) defaultConfig (Clock.mk 0 (fun _ => 0))
        (fun _ => Except.ok 4000) TaskSpec.never none
        (HandlerSpec.mk 500 (Except.ok ())) 1).outcome =
      some (Except.error e) ∧ e.isLambdaTimeout = true := by
  obtain ⟨pre, rest, _, _, _, _, hout, _⟩ :=
    timeout_trigger_runs_shutdown_once (T := Nat) defaultConfig (Clock.mk 0 (fun _ => 0))
      (fun _ => Except.ok 4000) none (HandlerSpec.mk 500 (Except.ok ())) 4000 0 1
      (by intro h; exact absurd h (by decide))
      (fun j hj => absurd hj (Nat.not_lt_zero j))
      rfl (by decide) (by decide)
  exact hout

/-- C2: a task that settles while every earlier check still saw remaining
time above the safety margin settles the invocation identically to
itself: its success value is returned exactly, its rejection propagates
unchanged (no timeout marker, no nested error, message preserved), the
timeout handler never runs, and the timer is cleared exactly once and
stopped by settlement. -/
theorem task_settles_first_propagates_unchanged {T : Type} (cfg : Config) (clock : Clock)
    (source : Nat → Except String Int) (t : Int) (o : Except String T)
    (cleanup : Option CleanupSpec) (handler : HandlerSpec) (k fuel : Nat)
    (hcap : cfg.isUsingFallbackTimer = true → ∃ i0, source 0 = Except.ok i0)
    (hbefore : ∀ j < k, checkTime cfg j < t ∧
      ∃ rj, remainingSeq cfg clock source j = Except.ok rj ∧ cfg.safetyMarginMs < rj)
    (hreach : t ≤ checkTime cfg k)
    (hfuel : k < fuel) :
    (∀ v, o = Except.ok v →
      (runInvocation cfg clock source (TaskSpec.settles t o) cleanup
        handler fuel).outcome = some (Except.ok v)) ∧
    (∀ m, o = Except.error m →
      (runInvocation cfg clock source (TaskSpec.settles t o) cleanup
        handler fuel).outcome = some (Except.error
          { message := m, isLambdaTimeout := false, handlerError := none })) ∧
    (runInvocation cfg clock source (TaskSpec.settles t o) cleanup
      handler fuel).trace.count Event.timeoutHandlerStart = 0 ∧
    (runInvocation cfg clock source (TaskSpec.settles t o) cleanup
      handler fuel).trace.count Event.clearIntervalEv = 1 ∧
    (runInvocation cfg clock source (TaskSpec.settles t o) cleanup
      handler fuel).timerActive = false := by
  rw [runInvocation_eq_loop cfg clock source (TaskSpec.settles t o) cleanup handler fuel hcap]
  obtain ⟨m, rfl⟩ : ∃ m, fuel = k + (m + 1) := ⟨fuel - (k + 1), by omega⟩
  obtain ⟨pre, hpre, heq⟩ :=
    raceLoop_reach cfg (remainingSeq cfg clock source) (TaskSpec.settles t o) cleanup handler
      k 0 (m + 1) (fun i _ hik =>
        ⟨taskSettledBy_notYet t o (checkTime cfg i) (hbefore i (by omega)).1,
          (hbefore i (by omega)).2⟩)
  rw [Nat.zero_add] at heq
  rw [raceLoop_succ, raceStep_taskSettled cfg (remainingSeq cfg clock source)
        (TaskSpec.settles t o) cleanup handler k _ o
        (taskSettledBy_done t o (checkTime cfg k) hreach)] at heq
  have hpreChecks : ∀ e ∈ pre, isCheckEv e = true := by
    intro e he
    obtain ⟨r', rfl, _⟩ := hpre e he
    rfl
  have h0 : pre.count Event.timeoutHandlerStart = 0 :=
    count_zero_of_checks hpreChecks rfl
  have h1 : pre.count Event.clearIntervalEv = 0 :=
    count_zero_of_checks hpreChecks rfl
  rcases o with msg | v
  · rw [taskSettleBranch_error] at heq
    rw [heq]
    refine ⟨?_, ?_, ?_, ?_, rfl⟩
    · intro v hv
      exact Except.noConfusion hv
    · intro m2 hm
      injection hm with h2
      subst h2
      rfl
    · simp [List.count_cons, List.count_append, h0]
    · simp [List.count_cons, List.count_append, h1]
  · rw [taskSettleBranch_ok] at heq
    rw [heq]
    refine ⟨?_, ?_, ?_, ?_, rfl⟩
    · intro v2 hv
      injection hv with h2
      subst h2
      rfl
    · intro m2 hm
      exact Except.noConfusion hm
    · simp [List.count_cons, List.count_append, h0]
    · simp [List.count_cons, List.count_append, h1]

/-- Witness for C2: a task resolving with 7 at instant 0 under a source
reporting 900000 ms resolves the invocation with exactly 7. -/
theorem task_settles_first_propagates_unchanged_witness :
    (runInvocation defaultConfig (Clock.mk 0 (fun _ => 0)) (fun _ => Except.ok 900000)
      (TaskSpec.settles 0 (Except.ok (7 : Nat))) none
      (HandlerSpec.mk 1 (Except.ok ())) 1).outcome = some (Except.ok 7) := by
  obtain ⟨h1, _, _, _, _⟩ :=
    task_settles_first_propagates_unchanged defaultConfig (Clock.mk 0 (fun _ => 0))
      (fun _ => Except.ok 900000) 0 (Except.ok (7 : Nat)) none
      (HandlerSpec.mk 1 (Except.ok ())) 0 1
      (by intro h; exact absurd h (by decide))
      (fun j hj => absurd hj (Nat.not_lt_zero j))
      (by decide) (by decide)
  exact h1 7 rfl

/-- C3: on every settling run that set the timer up, the periodic timer is
cleared exactly once and is no longer active when the invocation
settles; and clearing a cleared or never-started timer is a no-op. -/
theorem timer_cleared_exactly_once_on_settlement {T : Type} (cfg : Config) (clock : Clock)
    (source : Nat → Except String Int) (task : TaskSpec T)
    (cleanup : Option CleanupSpec) (handler : HandlerSpec) (fuel : Nat) :
    (∀ x, (runInvocation cfg clock source task cleanup handler fuel).outcome = some x →
      Event.setIntervalEv ∈ (runInvocation cfg clock source task cleanup
        handler fuel).trace →
      (runInvocation cfg clock source task cleanup handler fuel).trace.count
        Event.clearIntervalEv = 1 ∧
      (runInvocation cfg clock source task cleanup handler fuel).timerActive = false) ∧
    (∀ tr, clearIntervalGuarded false tr = (false, tr)) := by
  refine ⟨?_, fun tr => rfl⟩
  intro x hx hmem
  by_cases hfb : cfg.isUsingFallbackTimer = true
  · rcases hsrc : source 0 with msg | i0
    · have hrun : runInvocation cfg clock source task cleanup handler fuel =
          RunResult.mk [] (some (Except.error (rawError msg))) false := by
        simp [runInvocation, hfb, hsrc]
      rw [hrun] at hmem
      simp at hmem
    · have hcap : cfg.isUsingFallbackTimer = true → ∃ i, source 0 = Except.ok i :=
        fun _ => ⟨i0, hsrc⟩
      rw [runInvocation_eq_loop cfg clock source task cleanup handler fuel hcap] at hx ⊢
      obtain ⟨hc, ht⟩ := (raceLoop_clearCount cfg (remainingSeq cfg clock source) task
        cleanup handler fuel 0).2 x hx
      exact ⟨by simp [List.count_cons, hc], ht⟩
  · have hcap : cfg.isUsingFallbackTimer = true → ∃ i, source 0 = Except.ok i :=
      fun h => absurd h hfb
    rw [runInvocation_eq_loop cfg clock source task cleanup handler fuel hcap] at hx ⊢
    obtain ⟨hc, ht⟩ := (raceLoop_clearCount cfg (remainingSeq cfg clock source) task
      cleanup handler fuel 0).2 x hx
    exact ⟨by simp [List.count_cons, hc], ht⟩

/-- Witness for C3: a fast-path run clears its timer exactly once and ends
with the timer inactive. -/
theorem timer_cleared_exactly_once_on_settlement_witness :
    (runInvocation defaultConfig (Clock.mk 0 (fun _ => 0)) (fun _ => Except.ok 900000)
      (TaskSpec.settles 0 (Except.ok (5 : Nat))) none
      (HandlerSpec.mk 1 (Except.ok ())) 1).trace.count Event.clearIntervalEv = 1 ∧
    (runInvocation defaultConfig (Clock.mk 0 (fun _ => 0)) (fun _ => Except.ok 900000)
      (TaskSpec.settles 0 (Except.ok (5 : Nat))) none
      (HandlerSpec.mk 1 (Except.ok ())) 1).timerActive = false := by
  exact (timer_cleared_exactly_once_on_settlement defaultConfig (Clock.mk 0 (fun _ => 0))
    (fun _ => Except.ok 900000) (TaskSpec.settles 0 (Except.ok (5 : Nat))) none
    (HandlerSpec.mk 1 (Except.ok ())) 1).1 (Except.ok 5) rfl (by decide)

/-- C4: whenever a cleanup handler is provided and shutdown triggers, the
cleanup stage's completion event occurs strictly before the timeout
handler's start event in the invocation trace, and the timeout handler
starts exactly once. -/
theorem cleanup_completes_before_timeout_handler {T : Type} (cfg : Config) (clock : Clock)
    (source : Nat → Except String Int) (c : CleanupSpec)
    (handler : HandlerSpec) (r : Int) (k fuel : Nat)
    (hcap : cfg.isUsingFallbackTimer = true → ∃ i0, source 0 = Except.ok i0)
    (hbefore : ∀ j < k, ∃ rj, remainingSeq cfg clock source j = Except.ok rj ∧
      cfg.safetyMarginMs < rj)
    (htrig : remainingSeq cfg clock source k = Except.ok r)
    (hr : r ≤ cfg.safetyMarginMs)
    (hfuel : k < fuel) :
    (runInvocation (T := T) cfg clock source TaskSpec.never (some c)
      handler fuel).trace.count Event.timeoutHandlerStart = 1 ∧
    ∃ b, List.Sublist [Event.cleanupEnd b, Event.timeoutHandlerStart]
      (runInvocation (T := T) cfg clock source TaskSpec.never (some c)
        handler fuel).trace := by
  rw [runInvocation_eq_loop cfg clock source TaskSpec.never (some c) handler fuel hcap]
  obtain ⟨m, rfl⟩ : ∃ m, fuel = k + (m + 1) := ⟨fuel - (k + 1), by omega⟩
  obtain ⟨pre, hpre, heq⟩ :=
    raceLoop_reach cfg (remainingSeq cfg clock source) TaskSpec.never (some c) handler
      k 0 (m + 1) (fun i _ hik => ⟨rfl, hbefore i (by omega)⟩)
  rw [Nat.zero_add] at heq
  rw [raceLoop_succ, raceStep_trigger cfg (remainingSeq cfg clock source) TaskSpec.never
        (some c) handler k _ r rfl htrig hr,
      triggerBranch_taskMissing cfg TaskSpec.never (some c) handler _ r rfl] at heq
  rw [heq]
  have hpreChecks : ∀ e ∈ pre, isCheckEv e = true := by
    intro e he
    obtain ⟨r', rfl, _⟩ := hpre e he
    rfl
  have h0 : pre.count Event.timeoutHandlerStart = 0 :=
    count_zero_of_checks hpreChecks rfl
  obtain ⟨b, x, hsd⟩ := shutdownSequence_cleanup_trace cfg.cleanupTimeMs c handler
  constructor
  · simp [List.count_cons, List.count_append, shutdownSequence_count_thStart, h0]
  · refine ⟨b, ?_⟩
    have hsub0 : List.Sublist [Event.cleanupEnd b, Event.timeoutHandlerStart]
        (shutdownSequence cfg.cleanupTimeMs (some c) handler).trace := by
      rw [hsd]
      apply List.Sublist.cons
      apply List.Sublist.cons₂
      apply List.Sublist.cons₂
      exact List.nil_sublist _
    have hsub1 := hsub0.trans
      (List.sublist_append_left (shutdownSequence cfg.cleanupTimeMs (some c) handler).trace
        [Event.rejectEv])
    have hsub2 := ((hsub1.cons Event.clearIntervalEv).cons (Event.checkEv r)).trans
      (List.sublist_append_right pre
        (Event.checkEv r :: Event.clearIntervalEv ::
          ((shutdownSequence cfg.cleanupTimeMs (some c) handler).trace ++ [Event.rejectEv])))
    exact hsub2.cons Event.setIntervalEv

/-- Witness for C4: with a 100 ms succeeding cleanup handler and a
triggering source, cleanup completion precedes the timeout handler
start in the trace. -/
theorem cleanup_completes_before_timeout_handler_witness :
    ∃ b, List.Sublist [Event.cleanupEnd b, Event.timeoutHandlerStart]
      (runInvocation (T := Nat) defaultConfig (Clock.mk 0 (fun _ => 0))
        (fun _ => Except.ok 4000) TaskSpec.never
        (some (CleanupSpec.mk 100 (Except.ok ()))) (HandlerSpec.mk 500 (Except.ok ())) 1).trace := by
  obtain ⟨_, hsub⟩ :=
    cleanup_completes_before_timeout_handler (T := Nat) defaultConfig (Clock.mk 0 (fun _ => 0))
      (fun _ => Except.ok 4000) (CleanupSpec.mk 100 (Except.ok ()))
      (HandlerSpec.mk 500 (Except.ok ())) 4000 0 1
      (by intro h; exact absurd h (by decide))
      (fun j hj => absurd hj (Nat.not_lt_zero j))
      rfl (by decide) (by decide)
  exact hsub

/-- C5: a cleanup handler that throws or that exceeds its `cleanupTimeMs`
budget neither prevents the timeout handler from running nor changes the
final failure: with a succeeding timeout handler the invocation still
rejects with the clean timeout error (marker set, no nested handler
error), and the timeout handler runs exactly once. -/
theorem cleanup_failure_swallowed_clean_timeout {T : Type} (cfg : Config) (clock : Clock)
    (source : Nat → Except String Int) (c : CleanupSpec)
    (handler : HandlerSpec) (r : Int) (k fuel : Nat)
    (hcap : cfg.isUsingFallbackTimer = true → ∃ i0, source 0 = Except.ok i0)
    (hbefore : ∀ j < k, ∃ rj, remainingSeq cfg clock source j = Except.ok rj ∧
      cfg.safetyMarginMs < rj)
    (htrig : remainingSeq cfg clock source k = Except.ok r)
    (hr : r ≤ cfg.safetyMarginMs)
    (hfuel : k < fuel)
    (hcufail : (∃ em, c.outcome = Except.error em) ∨ cfg.cleanupTimeMs < c.durationMs)
    (hho : handler.outcome = Except.ok ()) :
    (runInvocation (T := T) cfg clock source TaskSpec.never (some c)
      handler fuel).outcome = some (Except.error
        { message := "Lambda function timeout detected", isLambdaTimeout := true,
          handlerError := none }) ∧
    (runInvocation (T := T) cfg clock source TaskSpec.never (some c)
      handler fuel).trace.count Event.timeoutHandlerStart = 1 := by
  rw [runInvocation_eq_loop cfg clock source TaskSpec.never (some c) handler fuel hcap]
  obtain ⟨m, rfl⟩ : ∃ m, fuel = k + (m + 1) := ⟨fuel - (k + 1), by omega⟩
  obtain ⟨pre, hpre, heq⟩ :=
    raceLoop_reach cfg (remainingSeq cfg clock source) TaskSpec.never (some c) handler
      k 0 (m + 1) (fun i _ hik => ⟨rfl, hbefore i (by omega)⟩)
  rw [Nat.zero_add] at heq
  rw [raceLoop_succ, raceStep_trigger cfg (remainingSeq cfg clock source) TaskSpec.never
        (some c) handler k _ r rfl htrig hr,
      triggerBranch_taskMissing cfg TaskSpec.never (some c) handler _ r rfl] at heq
  rw [heq]
  have hpreChecks : ∀ e ∈ pre, isCheckEv e = true := by
    intro e he
    obtain ⟨r', rfl, _⟩ := hpre e he
    rfl
  have h0 : pre.count Event.timeoutHandlerStart = 0 :=
    count_zero_of_checks hpreChecks rfl
  constructor
  · simp [shutdownSequence_err_handlerOk cfg.cleanupTimeMs (some c) handler hho]
  · simp [List.count_cons, List.count_append, shutdownSequence_count_thStart, h0]

/-- Witness for C5: a cleanup handler that throws still yields the clean
timeout rejection when the timeout handler succeeds. -/
theorem cleanup_failure_swallowed_clean_timeout_witness :
    (runInvocation (T := Nat) defaultConfig (Clock.mk 0 (fun _ => 0))
      (fun _ => Except.ok 4000) TaskSpec.never
      (some (CleanupSpec.mk 100 (Except.error "cleanup boom")))
      (HandlerSpec.mk 500 (Except.ok ())) 1).outcome = some (Except.error
        { message := "Lambda function timeout detected", isLambdaTimeout := true,
          handlerError := none }) := by
  obtain ⟨hout, _⟩ :=
    cleanup_failure_swallowed_clean_timeout (T := Nat) defaultConfig (Clock.mk 0 (fun _ => 0))
      (fun _ => Except.ok 4000) (CleanupSpec.mk 100 (Except.error "cleanup boom"))
      (HandlerSpec.mk 500 (Except.ok ())) 4000 0 1
      (by intro h; exact absurd h (by decide))
      (fun j hj => absurd hj (Nat.not_lt_zero j))
      rfl (by decide) (by decide)
      (Or.inl ⟨"cleanup boom", rfl⟩) rfl
  exact hout

/-- C6: a timeout handler that throws during shutdown produces a rejection
that is still timeout-marked and that carries the handler's own error:
the outer message wraps the handler message and the nested
`handlerError` equals the thrown error's message. -/
theorem handler_failure_nested_in_timeout_error {T : Type} (cfg : Config) (clock : Clock)
    (source : Nat → Except String Int) (cleanup : Option CleanupSpec)
    (handler : HandlerSpec) (r : Int) (hm : String) (k fuel : Nat)
    (hcap : cfg.isUsingFallbackTimer = true → ∃ i0, source 0 = Except.ok i0)
    (hbefore : ∀ j < k, ∃ rj, remainingSeq cfg clock source j = Except.ok rj ∧
      cfg.safetyMarginMs < rj)
    (htrig : remainingSeq cfg clock source k = Except.ok r)
    (hr : r ≤ cfg.safetyMarginMs)
    (hfuel : k < fuel)
    (hho : handler.outcome = Except.error hm) :
    (runInvocation (T := T) cfg clock source TaskSpec.never cleanup
      handler fuel).outcome = some (Except.error
        { message := "Timeout handler failed: " ++ hm, isLambdaTimeout := true,
          handlerError := some hm }) := by
  rw [runInvocation_eq_loop cfg clock source TaskSpec.never cleanup handler fuel hcap]
  obtain ⟨m, rfl⟩ : ∃ m, fuel = k + (m + 1) := ⟨fuel - (k + 1), by omega⟩
  obtain ⟨pre, hpre, heq⟩ :=
    raceLoop_reach cfg (remainingSeq cfg clock source) TaskSpec.never cleanup handler
      k 0 (m + 1) (fun i _ hik => ⟨rfl, hbefore i (by omega)⟩)
  rw [Nat.zero_add] at heq
  rw [raceLoop_succ, raceStep_trigger cfg (remainingSeq cfg clock source) TaskSpec.never
        cleanup handler k _ r rfl htrig hr,
      triggerBranch_taskMissing cfg TaskSpec.never cleanup handler _ r rfl] at heq
  rw [heq]
  simp [shutdownSequence_err_handlerFail cfg.cleanupTimeMs cleanup handler hm hho]

/-- Witness for C6: a timeout handler throwing "handler boom" yields a
timeout-marked rejection nesting exactly that message. -/
theorem handler_failure_nested_in_timeout_error_witness :
    (runInvocation (T := Nat) defaultConfig (Clock.mk 0 (fun _ => 0))
      (fun _ => Except.ok 4000) TaskSpec.never none
      (HandlerSpec.mk 500 (Except.error "handler boom")) 1).outcome =
      some (Except.error
        { message := "Timeout handler failed: " ++ "handler boom",
          isLambdaTimeout := true, handlerError := some "handler boom" }) := by
  exact handler_failure_nested_in_timeout_error (T := Nat) defaultConfig
    (Clock.mk 0 (fun _ => 0)) (fun _ => Except.ok 4000) none
    (HandlerSpec.mk 500 (Except.error "handler boom")) 4000 "handler boom" 0 1
    (by intro h; exact absurd h (by decide))
    (fun j hj => absurd hj (Nat.not_lt_zero j))
    rfl (by decide) (by decide) rfl

/-- C8: when the remaining-time computation itself throws at a check, the
periodic timer is cancelled (exactly once) and the raw error propagates
to the caller unchanged: same message, no timeout marker, no nested
error, and the timeout handler never runs. -/
theorem check_error_propagates_raw {T : Type} (cfg : Config) (clock : Clock)
    (source : Nat → Except String Int) (task : TaskSpec T)
    (cleanup : Option CleanupSpec) (handler : HandlerSpec) (msg : String) (k fuel : Nat)
    (hcap : cfg.isUsingFallbackTimer = true → ∃ i0, source 0 = Except.ok i0)
    (hbefore : ∀ j < k, taskSettledBy task (checkTime cfg j) = none ∧
      ∃ rj, remainingSeq cfg clock source j = Except.ok rj ∧ cfg.safetyMarginMs < rj)
    (htask : taskSettledBy task (checkTime cfg k) = none)
    (herr : remainingSeq cfg clock source k = Except.error msg)
    (hfuel : k < fuel) :
    (runInvocation cfg clock source task cleanup handler fuel).outcome =
      some (Except.error
        { message := msg, isLambdaTimeout := false, handlerError := none }) ∧
    (runInvocation cfg clock source task cleanup handler fuel).trace.count
      Event.clearIntervalEv = 1 ∧
    (runInvocation cfg clock source task cleanup handler fuel).trace.count
      Event.timeoutHandlerStart = 0 ∧
    (runInvocation cfg clock source task cleanup handler fuel).timerActive = false := by
  rw [runInvocation_eq_loop cfg clock source task cleanup handler fuel hcap]
  obtain ⟨m, rfl⟩ : ∃ m, fuel = k + (m + 1) := ⟨fuel - (k + 1), by omega⟩
  obtain ⟨pre, hpre, heq⟩ :=
    raceLoop_reach cfg (remainingSeq cfg clock source) task cleanup handler
      k 0 (m + 1) (fun i _ hik => hbefore i (by omega))
  rw [Nat.zero_add] at heq
  rw [raceLoop_succ, raceStep_checkError cfg (remainingSeq cfg clock source) task
        cleanup handler k _ msg htask herr] at heq
  rw [heq]
  have hpreChecks : ∀ e ∈ pre, isCheckEv e = true := by
    intro e he
    obtain ⟨r', rfl, _⟩ := hpre e he
    rfl
  have h0 : pre.count Event.timeoutHandlerStart = 0 :=
    count_zero_of_checks hpreChecks rfl
  have h1 : pre.count Event.clearIntervalEv = 0 :=
    count_zero_of_checks hpreChecks rfl
  refine ⟨rfl, ?_, ?_, rfl⟩
  · simp [List.count_cons, List.count_append, h1]
  · simp [List.count_cons, List.count_append, h0]

/-- Witness for C8: a source throwing "boom" at the initial check rejects
the invocation with the raw error and a cancelled timer. -/
theorem check_error_propagates_raw_witness :
    (runInvocation (T := Nat) defaultConfig (Clock.mk 0 (fun _ => 0))
      (fun _ => Except.error "boom") TaskSpec.never none
      (HandlerSpec.mk 1 (Except.ok ())) 1).outcome =
      some (Except.error
        { message := "boom", isLambdaTimeout := false, handlerError := none }) ∧
    (runInvocation (T := Nat) defaultConfig (Clock.mk 0 (fun _ => 0))
      (fun _ => Except.error "boom") TaskSpec.never none
      (HandlerSpec.mk 1 (Except.ok ())) 1).timerActive = false := by
  obtain ⟨hout, _, _, htimer⟩ :=
    check_error_propagates_raw (T := Nat) defaultConfig (Clock.mk 0 (fun _ => 0))
      (fun _ => Except.error "boom") TaskSpec.never none
      (HandlerSpec.mk 1 (Except.ok ())) "boom" 0 1
      (by intro h; exact absurd h (by decide))
      (fun j hj => absurd hj (Nat.not_lt_zero j))
      rfl rfl (by decide)
  exact ⟨hout, htimer⟩

/-- C10: triggering shutdown does not by itself settle the invocation: a
task that resolves after the trigger but no later than the shutdown
sequence's rejection instant wins the race — the invocation resolves
with the task's value and the shutdown failure is discarded, even though
the timeout handler ran. -/
theorem late_task_success_discards_shutdown {T : Type} (cfg : Config) (clock : Clock)
    (source : Nat → Except String Int) (t : Int) (v : T)
    (cleanup : Option CleanupSpec) (handler : HandlerSpec) (r : Int) (k fuel : Nat)
    (hcap : cfg.isUsingFallbackTimer = true → ∃ i0, source 0 = Except.ok i0)
    (hbefore : ∀ j < k, checkTime cfg j < t ∧
      ∃ rj, remainingSeq cfg clock source j = Except.ok rj ∧ cfg.safetyMarginMs < rj)
    (htrig : remainingSeq cfg clock source k = Except.ok r)
    (hr : r ≤ cfg.safetyMarginMs)
    (htk : checkTime cfg k < t)
    (hwin : t ≤ checkTime cfg k +
      (shutdownSequence cfg.cleanupTimeMs cleanup handler).duration)
    (hfuel : k < fuel) :
    (runInvocation cfg clock source (TaskSpec.settles t (Except.ok v)) cleanup
      handler fuel).outcome = some (Except.ok v) ∧
    (runInvocation cfg clock source (TaskSpec.settles t (Except.ok v)) cleanup
      handler fuel).trace.count Event.timeoutHandlerStart = 1 ∧
    (runInvocation cfg clock source (TaskSpec.settles t (Except.ok v)) cleanup
      handler fuel).timerActive = false := by
  rw [runInvocation_eq_loop cfg clock source (TaskSpec.settles t (Except.ok v)) cleanup
    handler fuel hcap]
  obtain ⟨m, rfl⟩ : ∃ m, fuel = k + (m + 1) := ⟨fuel - (k + 1), by omega⟩
  obtain ⟨pre, hpre, heq⟩ :=
    raceLoop_reach cfg (remainingSeq cfg clock source) (TaskSpec.settles t (Except.ok v))
      cleanup handler k 0 (m + 1) (fun i _ hik =>
        ⟨taskSettledBy_notYet t (Except.ok v) (checkTime cfg i) (hbefore i (by omega)).1,
          (hbefore i (by omega)).2⟩)
  rw [Nat.zero_add] at heq
  rw [raceLoop_succ, raceStep_trigger cfg (remainingSeq cfg clock source)
        (TaskSpec.settles t (Except.ok v)) cleanup handler k _ r
        (taskSettledBy_notYet t (Except.ok v) (checkTime cfg k) htk) htrig hr,
      triggerBranch_taskOk cfg (TaskSpec.settles t (Except.ok v)) cleanup handler _ r v
        (taskSettledBy_done t (Except.ok v) _ hwin)] at heq
  rw [heq]
  have hpreChecks : ∀ e ∈ pre, isCheckEv e = true := by
    intro e he
    obtain ⟨r', rfl, _⟩ := hpre e he
    rfl
  have h0 : pre.count Event.timeoutHandlerStart = 0 :=
    count_zero_of_checks hpreChecks rfl
  refine ⟨rfl, ?_, rfl⟩
  simp [List.count_cons, List.count_append, shutdownSequence_count_thStart, h0]

/-- Witness for C10: the trigger fires at instant 0 (remaining 4000 ≤
margin 5000), the shutdown takes 500 ms, and the task resolves with 42
at instant 300 — the invocation resolves with 42 although the timeout
handler ran. -/
theorem late_task_success_discards_shutdown_witness :
    (runInvocation defaultConfig (Clock.mk 0 (fun _ => 0)) (fun _ => Except.ok 4000)
      (TaskSpec.settles 300 (Except.ok (42 : Nat))) none
      (HandlerSpec.mk 500 (Except.ok ())) 1).outcome = some (Except.ok 42) ∧
    (runInvocation defaultConfig (Clock.mk 0 (fun _ => 0)) (fun _ => Except.ok 4000)
      (TaskSpec.settles 300 (Except.ok (42 : Nat))) none
      (HandlerSpec.mk 500 (Except.ok ())) 1).trace.count Event.timeoutHandlerStart = 1 := by
  obtain ⟨hout, hcount, _⟩ :=
    late_task_success_discards_shutdown defaultConfig (Clock.mk 0 (fun _ => 0))
      (fun _ => Except.ok 4000) 300 (42 : Nat) none (HandlerSpec.mk 500 (Except.ok ()))
      4000 0 1
      (by intro h; exact absurd h (by decide))
      (fun j hj => absurd hj (Nat.not_lt_zero j))
      rfl (by decide) (by decide) (by decide) (by decide)
  exact ⟨hout, hcount⟩

/-- C9: in fallback-stopwatch mode the start instant and the initial
remaining-time reading are captured once, before racing begins: every
check computes remaining time by the formula
`initialRemaining - (now - startInstant)`; the whole invocation is
unchanged under any replacement source that agrees on the initial
reading (the source is never re-queried); and the computed remaining
time is monotonically non-increasing under non-decreasing wall-clock
time. -/
theorem fallback_remaining_captured_once_monotone {T : Type} (cfg : Config) (clock : Clock)
    (source : Nat → Except String Int) (init0 : Int)
    (hfb : cfg.isUsingFallbackTimer = true)
    (hsrc : source 0 = Except.ok init0) :
    (∀ k, remainingSeq cfg clock source k =
      Except.ok (init0 - (clock.nowAt k - clock.startNow))) ∧
    (∀ source2, source2 0 = source 0 →
      ∀ (task : TaskSpec T) (cleanup : Option CleanupSpec) (handler : HandlerSpec)
        (fuel : Nat),
        runInvocation cfg clock source2 task cleanup handler fuel =
          runInvocation cfg clock source task cleanup handler fuel) ∧
    (∀ j k rj rk, clock.nowAt j ≤ clock.nowAt k →
      remainingSeq cfg clock source j = Except.ok rj →
      remainingSeq cfg clock source k = Except.ok rk →
      rk ≤ rj) := by
  have hform : ∀ k, remainingSeq cfg clock source k =
      Except.ok (init0 - (clock.nowAt k - clock.startNow)) := by
    intro k
    simp [remainingSeq, hfb, hsrc, Except.map]
  refine ⟨hform, ?_, ?_⟩
  · intro source2 hs0 task cleanup handler fuel
    have hs0' : source2 0 = Except.ok init0 := hs0.trans hsrc
    simp [runInvocation, hfb, hsrc, hs0']
  · intro j k rj rk hnow hj hk
    rw [hform j] at hj
    rw [hform k] at hk
    injection hj with hj2
    injection hk with hk2
    omega

/-- Witness for C9: with fallback mode, start instant 0, initial reading
10000 and a 1000 ms/check clock, check 2 computes 10000 - 2000, and
replacing the source by one that agrees only on call 0 leaves the whole
invocation unchanged. -/
theorem fallback_remaining_captured_once_monotone_witness :
    remainingSeq (Config.mk 5000 1000 3000 true) (Clock.mk 0 (fun k => (k : Int) * 1000))
      (fun n => if n = 0 then Except.ok 10000 else Except.error "fresh query") 2 =
      Except.ok (10000 - ((2 : Int) * 1000 - 0)) ∧
    runInvocation (T := Nat) (Config.mk 5000 1000 3000 true)
      (Clock.mk 0 (fun k => (k : Int) * 1000)) (fun _ => Except.ok 10000)
      TaskSpec.never none (HandlerSpec.mk 1 (Except.ok ())) 2 =
    runInvocation (T := Nat) (Config.mk 5000 1000 3000 true)
      (Clock.mk 0 (fun k => (k : Int) * 1000))
      (fun n => if n = 0 then Except.ok 10000 else Except.error "fresh query")
      TaskSpec.never none (HandlerSpec.mk 1 (Except.ok ())) 2 := by
  obtain ⟨hform, hindep, hmono⟩ :=
    fallback_remaining_captured_once_monotone (T := Nat) (Config.mk 5000 1000 3000 true)
      (Clock.mk 0 (fun k => (k : Int) * 1000))
      (fun n => if n = 0 then Except.ok 10000 else Except.error "fresh query") 10000
      rfl rfl
  exact ⟨hform 2, hindep (fun _ => Except.ok 10000) rfl TaskSpec.never none
    (HandlerSpec.mk 1 (Except.ok ())) 2⟩

/-- Counterexample to C7 as stated: invoking with `getRemainingTimeInMillis`
absent does not fail fast — the destructuring default (a source reporting
15 minutes) is substituted, the timer is set up and the invocation
proceeds to racing, here resolving with the task's value 42. -/
theorem absent_source_uses_default_not_config_error :
    (invoke (T := Nat) JsOpt.undefined
      (JsOpt.callable (HandlerSpec.mk 1 (Except.ok ()))) JsOpt.undefined
      defaultConfig (Clock.mk 0 (fun _ => 0))
      (TaskSpec.settles 0 (Except.ok 42)) 1).outcome = some (Except.ok 42) ∧
    Event.setIntervalEv ∈ (invoke (T := Nat) JsOpt.undefined
      (JsOpt.callable (HandlerSpec.mk 1 (Except.ok ()))) JsOpt.undefined
      defaultConfig (Clock.mk 0 (fun _ => 0))
      (TaskSpec.settles 0 (Except.ok 42)) 1).trace := by
  exact ⟨rfl, by decide⟩

/-- C7 (amended): invoking with a provided but non-callable
`getRemainingTimeInMillis`, or with `timeoutHandler` absent or
non-callable, fails fast with a descriptive configuration error (not a
timeout-marked error), before racing begins and with no timer setup; an
absent `getRemainingTimeInMillis` is instead replaced by the built-in
default source. -/
theorem config_error_fails_fast_before_racing {T : Type}
    (srcOpt : JsOpt (Nat → Except String Int)) (thOpt : JsOpt HandlerSpec)
    (cuOpt : JsOpt CleanupSpec) (cfg : Config) (clock : Clock)
    (task : TaskSpec T) (fuel : Nat)
    (hbad : srcOpt = JsOpt.notCallable ∨ thOpt = JsOpt.undefined ∨
      thOpt = JsOpt.notCallable) :
    (∃ e, invoke srcOpt thOpt cuOpt cfg clock task fuel =
        RunResult.mk [] (some (Except.error e)) false ∧
      e.isLambdaTimeout = false ∧ e.handlerError = none ∧
      (e.message = "getRemainingTimeInMillis is required" ∨
        e.message = "Timeout handler function is required")) ∧
    resolveSourceOption JsOpt.undefined = JsOpt.callable defaultRemainingSource := by
  refine ⟨?_, rfl⟩
  rcases hbad with h | h | h
  · subst h
    exact ⟨rawError "getRemainingTimeInMillis is required", rfl, rfl, rfl, Or.inl rfl⟩
  · subst h
    rcases srcOpt with _ | f | _
    · exact ⟨rawError "Timeout handler function is required", rfl, rfl, rfl, Or.inr rfl⟩
    · exact ⟨rawError "Timeout handler function is required", rfl, rfl, rfl, Or.inr rfl⟩
    · exact ⟨rawError "getRemainingTimeInMillis is required", rfl, rfl, rfl, Or.inl rfl⟩
  · subst h
    rcases srcOpt with _ | f | _
    · exact ⟨rawError "Timeout handler function is required", rfl, rfl, rfl, Or.inr rfl⟩
    · exact ⟨rawError "Timeout handler function is required", rfl, rfl, rfl, Or.inr rfl⟩
    · exact ⟨rawError "getRemainingTimeInMillis is required", rfl, rfl, rfl, Or.inl rfl⟩

/-- Witness for the amended C7: a callable source with an absent timeout
handler rejects immediately with the configuration error and an empty
trace (no timer setup). -/
theorem config_error_fails_fast_before_racing_witness :
    ∃ e, invoke (T := Nat) (JsOpt.callable (fun _ => Except.ok 1000)) JsOpt.undefined
        JsOpt.undefined defaultConfig (Clock.mk 0 (fun _ => 0)) TaskSpec.never 3 =
        RunResult.mk [] (some (Except.error e)) false ∧
      e.isLambdaTimeout = false ∧ e.handlerError = none ∧
      (e.message = "getRemainingTimeInMillis is required" ∨
        e.message = "Timeout handler function is required") := by
  exact (config_error_fails_fast_before_racing (T := Nat)
    (JsOpt.callable (fun _ => Except.ok 1000)) JsOpt.undefined JsOpt.undefined
    defaultConfig (Clock.mk 0 (fun _ => 0)) TaskSpec.never 3
    (Or.inr (Or.inl rfl))).1
